import Mathlib

/-!
Verification of the ephemeral object store implemented in `server.js`
(direct-file-share).  The main server (the third variant in `server.js`,
lines 308-483) keeps an in-memory `files` Map from a random hex id to
metadata `{ filepath, originalName, size, mimeType, expiresAt, timeout }`,
stores blobs in a flat storage directory, and exposes:

* `POST /api/upload`   (lines 378-413)  — multer disk write, then register
  metadata and schedule deletion;
* `GET /d/:id`         (lines 416-448)  — single-use download: expiry check,
  stream, delete the record and blob in the `res.on('finish')` handler;
* `GET /api/status/:id` (lines 465-474) — read-only registry lookup;
* startup orphan cleanup (lines 324-335) — unlink every pre-existing file
  in the storage root;
* `scheduleDeletion`   (lines 364-375)  — per-object deletion timer;
* multer error middleware (lines 452-462) — `LIMIT_FILE_SIZE` maps to 413.

The registry (a JS `Map`) and the storage directory are modelled as
association lists keyed by strings; `Map.get`/`Map.set`/`Map.delete` and
`fs` reads/unlinks become `lookupK`/`insertK`/`eraseK`.  Machine-level
concerns (the HTTP socket, the event loop) are outside the model: handlers
are functions from state to result and next state, and the `finish`
callback of a download is the state transformation it performs.
-/

/-- Association-list lookup with decidable string equality; models
`Map.get` on the registry and reading a path from the storage directory. -/
def lookupK {α : Type} (k : String) : List (String × α) → Option α
  | [] => none
  | (k', v) :: rest => if k' = k then some v else lookupK k rest

/-- Remove every binding of key `k`; models `Map.delete` and `fs.unlink`
(both remove the key entirely; deleting an absent key is a no-op). -/
def eraseK {α : Type} (k : String) : List (String × α) → List (String × α)
  | [] => []
  | (k', v) :: rest => if k' = k then eraseK k rest else (k', v) :: eraseK k rest

/-- Bind key `k` to `v`, replacing any previous binding; models `Map.set`
and writing a fresh file at a path. -/
def insertK {α : Type} (k : String) (v : α) (l : List (String × α)) :
    List (String × α) :=
  (k, v) :: eraseK k l

theorem lookupK_eraseK_self {α : Type} (k : String) (l : List (String × α)) :
    lookupK k (eraseK k l) = none := by
  induction l with
  | nil => rfl
  | cons hd tl ih =>
    obtain ⟨k', v⟩ := hd
    by_cases h : k' = k
    · simp [eraseK, h, ih]
    · simp [eraseK, lookupK, h, ih]

theorem lookupK_eraseK_ne {α : Type} (k k' : String) (l : List (String × α))
    (h : k' ≠ k) : lookupK k' (eraseK k l) = lookupK k' l := by
  induction l with
  | nil => rfl
  | cons hd tl ih =>
    obtain ⟨k'', v⟩ := hd
    by_cases hk : k'' = k
    · subst hk
      have : ¬ (k'' = k') := fun he => h (he ▸ rfl)
      simp [eraseK, lookupK, this, ih]
    · simp [eraseK, lookupK, hk, ih]

theorem lookupK_insertK_self {α : Type} (k : String) (v : α)
    (l : List (String × α)) : lookupK k (insertK k v l) = some v := by
  simp [insertK, lookupK]

theorem lookupK_insertK_ne {α : Type} (k k' : String) (v : α)
    (l : List (String × α)) (h : k' ≠ k) :
    lookupK k' (insertK k v l) = lookupK k' l := by
  have : ¬ (k = k') := fun he => h (he ▸ rfl)
  simp [insertK, lookupK, this, lookupK_eraseK_ne k k' l h]

theorem eraseK_eraseK {α : Type} (k : String) (l : List (String × α)) :
    eraseK k (eraseK k l) = eraseK k l := by
  induction l with
  | nil => rfl
  | cons hd tl ih =>
    obtain ⟨k', v⟩ := hd
    by_cases h : k' = k
    · simp [eraseK, h, ih]
    · simp [eraseK, h, ih]

/-- Blob bytes: a file's content is a byte sequence. -/
abbrev Bytes := List Nat

/-- The storage directory: path to file content (`STORAGE_DIR`, flat). -/
abbrev Disk := List (String × Bytes)

/-- One registry record, `server.js` lines 388-394: the metadata object
stored in the `files` Map by `POST /api/upload`. -/
structure Meta where
  filepath : String
  originalName : String
  size : Nat
  mimeType : String
  expiresAt : Nat
  deriving Repr, DecidableEq

/-- The in-memory registry, `const files = new Map()` (line 362). -/
abbrev Registry := List (String × Meta)

/-- Shared mutable state of the server: registry plus storage directory. -/
structure ServerState where
  files : Registry
  disk : Disk
  deriving Repr, DecidableEq

/-- Body of the deletion-timer callback in `scheduleDeletion` (lines
368-374) and of the `res.on('finish')` handler (lines 443-447): unlink the
captured `entry.filepath` and delete the id from `files`.  Both swallow
`fs.unlink` errors (empty callback / `try { } catch`), so the step is a
total function: it never throws. -/
def removeAndUnlink (st : ServerState) (id filepath : String) : ServerState :=
  { files := eraseK id st.files, disk := eraseK filepath st.disk }

/-- Result of `GET /d/:id`. -/
inductive FetchResult where
  /-- 404 File not found or expired (line 419). -/
  | notFound
  /-- 410 File expired (line 425). -/
  | expired
  /-- 500 Download error: the read stream errored (lines 434-437). -/
  | streamError
  /-- 200: the blob streamed as an attachment with the recorded
  `originalName` and `mimeType` (lines 428-439). -/
  | content (bytes : Bytes) (originalName : String) (mimeType : String)
  deriving Repr, DecidableEq

/-- The `GET /d/:id` handler up to and including stream open (lines
416-439), before the `finish` handler has run.  The expired branch (lines
422-426) eagerly unlinks and deletes; the content branch leaves the state
untouched at open — deletion happens only in `res.on('finish')`. -/
def fetchOpen (st : ServerState) (now : Nat) (id : String) :
    FetchResult × ServerState :=
  match lookupK id st.files with
  | none => (.notFound, st)
  | some e =>
    if e.expiresAt < now then
      (.expired, removeAndUnlink st id e.filepath)
    else
      match lookupK e.filepath st.disk with
      | none => (.streamError, st)
      | some bs => (.content bs e.originalName e.mimeType, st)

/-- The complete `GET /d/:id` handler (lines 416-448): `fetchOpen`, and on
successful delivery the `res.on('finish')` handler removes the record and
unlinks the blob.  If the stream errors the `finish` handler does not run
and the state is unchanged. -/
def fetchFull (st : ServerState) (now : Nat) (id : String) :
    FetchResult × ServerState :=
  match lookupK id st.files with
  | none => (.notFound, st)
  | some e =>
    if e.expiresAt < now then
      (.expired, removeAndUnlink st id e.filepath)
    else
      match lookupK e.filepath st.disk with
      | none => (.streamError, st)
      | some bs => (.content bs e.originalName e.mimeType,
          removeAndUnlink st id e.filepath)

/-- Result of `GET /api/status/:id`. -/
inductive StatusResult where
  /-- 404 with `{exists: false}` (line 467). -/
  | notFound
  /-- 200 with `{exists: true, expiresAt, size, originalName}`
  (lines 468-473). -/
  | info (expiresAt : Nat) (size : Nat) (originalName : String)
  deriving Repr, DecidableEq

/-- The `GET /api/status/:id` handler (lines 465-474): a bare `files.get`.
It contains no expiry check and no `files.delete`/`fs.unlink`, so the
returned state is the input state. -/
def handleStatus (st : ServerState) (id : String) : StatusResult × ServerState :=
  match lookupK id st.files with
  | none => (.notFound, st)
  | some e => (.info e.expiresAt e.size e.originalName, st)

/-- The uploaded file as multer presents it to the route handler
(`req.file`): content, user-supplied name, declared MIME type. -/
structure UploadFile where
  bytes : Bytes
  originalname : String
  mimetype : String
  deriving Repr, DecidableEq

/-- Errors the upload pipeline can surface to the error middleware. -/
inductive UploadError where
  /-- multer `MulterError` with code `LIMIT_FILE_SIZE`. -/
  | limitFileSize
  /-- any other `MulterError` code. -/
  | otherMulter
  /-- a non-multer error, e.g. a disk write failure, forwarded by
  `next(err)` (line 461) to the express default handler. -/
  | ioFailure
  deriving Repr, DecidableEq

/-- The multer error middleware (lines 452-462) composed with the express
default error handler: `LIMIT_FILE_SIZE` becomes HTTP 413 (line 456), other
multer errors 400 (line 458), forwarded errors 500. -/
def errorStatus : UploadError → Nat
  | .limitFileSize => 413
  | .otherMulter => 400
  | .ioFailure => 500

/-- Modelled from the spec: the multer disk-storage middleware configured at
lines 346-358 is library code that is not under `src/`.  Per the spec
(sections 4.2 and 5), the size limit is enforced incrementally during
streaming and a partial file is cleaned up when the upload is aborted, so a
rejected write leaves the storage directory unchanged; a file of at most
`limit` bytes is written whole at the fresh path.  `ioFail` injects the
environment event of a disk write failure (`StorageIO`). -/
def multerWrite (disk : Disk) (filepath : String) (f : UploadFile)
    (limit : Nat) (ioFail : Bool) : Except UploadError Disk :=
  if ioFail then .error .ioFailure
  else if f.bytes.length ≤ limit then .ok (insertK filepath f.bytes disk)
  else .error .limitFileSize

/-- Result of `POST /api/upload` as seen by the client. -/
inductive UploadResult where
  /-- 200 with `{id, downloadUrl, qrDataUrl, expiresAt}` (lines 403-408). -/
  | ok (id : String) (expiresAt : Nat)
  /-- an error response with the given HTTP status. -/
  | err (status : Nat)
  deriving Repr, DecidableEq

/-- The `POST /api/upload` route (lines 378-413) behind the multer
middleware and the error middleware (lines 452-462).  `maxFileSize` and
`expirationMs` are the `MAX_FILE_SIZE` / `EXPIRATION_MS` configuration
(lines 319-320); `id` is the token from `crypto.randomBytes(18)` (line 383)
and `filepath` the multer-generated storage path.  When multer fails, the
route handler never runs, so the registry is untouched; on success the
metadata (lines 388-394) is registered under `id` and deletion is scheduled
(line 398, the timer body being `removeAndUnlink`). -/
def handleUpload (maxFileSize expirationMs : Nat) (st : ServerState)
    (f : UploadFile) (id filepath : String) (now : Nat) (ioFail : Bool) :
    UploadResult × ServerState :=
  match multerWrite st.disk filepath f maxFileSize ioFail with
  | .error e => (.err (errorStatus e), st)
  | .ok disk2 =>
    let meta : Meta :=
      { filepath := filepath, originalName := f.originalname,
        size := f.bytes.length, mimeType := f.mimetype,
        expiresAt := now + expirationMs }
    (.ok id (now + expirationMs),
     { files := insertK id meta st.files, disk := disk2 })

/-- Startup orphan cleanup (lines 324-335): `fs.readdir` the storage root
and `fs.unlink` every listed file.  The directory listing is the key set of
the disk at startup. -/
def startupCleanup (d : Disk) : Disk :=
  (d.map Prod.fst).foldl (fun acc p => eraseK p acc) d

/-- Process startup: the cleanup is issued over the pre-existing storage
directory (lines 324-335), the registry starts empty (`new Map()`, line
362), and only then is `app.listen` reached (lines 480-483). -/
def startServer (d : Disk) : ServerState :=
  { files := [], disk := startupCleanup d }

/-- Characters the filename sanitizer keeps: the JS character class
`[a-zA-Z0-9._-]` (line 351). -/
def safeChar (c : Char) : Bool :=
  c.isAlphanum || c == '.' || c == '_' || c == '-'

/-- The sanitizer at line 351:
`file.originalname.replace(/[^a-zA-Z0-9._-]/g, '_')`. -/
def sanitizeName (s : String) : String :=
  ⟨s.data.map (fun c => if safeChar c then c else '_')⟩

/-- The multer `filename` callback of the main server (lines 348-352):
`rand` is `crypto.randomBytes(8).toString('hex')`, `ts` is `Date.now()`,
and the stored name is `rand-ts-safeName`. -/
def storageFilename (rand : String) (ts : Nat) (originalname : String) :
    String :=
  rand ++ "-" ++ toString ts ++ "-" ++ sanitizeName originalname

/-!
The second server variant in `server.js` (lines 139-307) keeps
`fileStore : Map fileId ↦ { filePath, originalName, timeout }` and serves
`GET /download/:id` (lines 236-262).  Its registry-miss branch (lines
240-247) is cited by the registry-removal claim: when `fileStore` has no
entry for the id, the handler answers 404 even when the file is still
physically on disk ("Check filesystem as a fallback in case server
restarted, but don't allow download").  The URL-parameter trimming by
`path.basename`/`path.extname` (line 237) is HTTP glue outside the core
and is elided: the handler below receives the extracted `fileId`.
-/

/-- A `fileStore` record of the second variant (lines 222-226), without the
timer handle. -/
structure MetaV2 where
  filePath : String
  originalName : String
  deriving Repr, DecidableEq

/-- State of the second variant: `fileStore` plus the uploads directory. -/
structure V2State where
  fileStore : List (String × MetaV2)
  disk : Disk
  deriving Repr, DecidableEq

/-- Result of the second variant's `GET /download/:id`. -/
inductive V2Result where
  /-- 404 File has expired (line 244): registry miss but a file with that
  name is still on disk. -/
  | expiredMsg
  /-- 404 File not found or has expired (line 246). -/
  | notFoundMsg
  /-- `res.download` errored; the callback still unlinks and deletes
  (lines 254-261). -/
  | downloadError
  /-- 200: the file served with the recorded `originalName`. -/
  | download (bytes : Bytes) (originalName : String)
  deriving Repr, DecidableEq

/-- The second variant's `GET /download/:id` handler (lines 236-262).  On a
`fileStore` miss it responds 404 without reading file content, whether or
not the file exists on disk; on a hit it serves the file and the
`res.download` callback unlinks the file and deletes the record. -/
def handleDownloadV2 (st : V2State) (fileId : String) : V2Result × V2State :=
  match lookupK fileId st.fileStore with
  | none =>
    if (lookupK fileId st.disk).isSome then (.expiredMsg, st)
    else (.notFoundMsg, st)
  | some m =>
    match lookupK m.filePath st.disk with
    | none => (.downloadError,
        { fileStore := eraseK fileId st.fileStore,
          disk := eraseK m.filePath st.disk })
    | some bs => (.download bs m.originalName,
        { fileStore := eraseK fileId st.fileStore,
          disk := eraseK m.filePath st.disk })

/-!  Helper lemmas for the startup cleanup fold.  -/

theorem lookupK_eraseK_none {α : Type} (k q : String) (l : List (String × α))
    (h : lookupK k l = none) : lookupK k (eraseK q l) = none := by
  by_cases hk : k = q
  · subst hk
    exact lookupK_eraseK_self k l
  · rw [lookupK_eraseK_ne q k l hk]
    exact h

theorem lookupK_foldl_eraseK_none {α : Type} (names : List String)
    (d : List (String × α)) (p : String) (h : lookupK p d = none) :
    lookupK p (names.foldl (fun acc q => eraseK q acc) d) = none := by
  induction names generalizing d with
  | nil => exact h
  | cons n ns ih =>
    simpa [List.foldl] using ih (eraseK n d) (lookupK_eraseK_none p n d h)

theorem lookupK_foldl_eraseK_mem {α : Type} (names : List String)
    (d : List (String × α)) (p : String) (h : p ∈ names) :
    lookupK p (names.foldl (fun acc q => eraseK q acc) d) = none := by
  induction names generalizing d with
  | nil => cases h
  | cons n ns ih =>
    rcases List.mem_cons.mp h with he | hm
    · subst he
      exact lookupK_foldl_eraseK_none ns (eraseK p d) p (lookupK_eraseK_self p d)
    · simpa [List.foldl] using ih (eraseK n d) hm

theorem lookupK_eq_none_of_not_mem_keys {α : Type} (p : String)
    (d : List (String × α)) (h : p ∉ d.map Prod.fst) : lookupK p d = none := by
  induction d with
  | nil => rfl
  | cons hd tl ih =>
    obtain ⟨k, v⟩ := hd
    simp only [List.map_cons, List.mem_cons] at h
    push_neg at h
    have hk : ¬ (k = p) := fun he => h.1 (he ▸ rfl)
    simpa [lookupK, hk] using ih h.2

theorem lookupK_startupCleanup (d : Disk) (p : String) :
    lookupK p (startupCleanup d) = none := by
  by_cases h : p ∈ d.map Prod.fst
  · exact lookupK_foldl_eraseK_mem (d.map Prod.fst) d p h
  · exact lookupK_foldl_eraseK_none (d.map Prod.fst) d p
      (lookupK_eq_none_of_not_mem_keys p d h)

/-!  Concrete fixtures used by the witness theorems.  -/

/-- A registered record whose blob lives at path `p1`. -/
def wMeta : Meta :=
  { filepath := "p1", originalName := "doc.pdf", size := 3,
    mimeType := "application/pdf", expiresAt := 100 }

/-- A server state holding one live object `id1` with blob bytes
`[1, 2, 3]` at path `p1`. -/
def wState : ServerState :=
  { files := [("id1", wMeta)], disk := [("p1", [1, 2, 3])] }

/-- C1: on the main server every object is single-use.  Whenever `GET
/d/:id` delivers content, (a) any later fetch of the same id answers
`notFound`, never the content; (b) at stream open the state is untouched,
so the record and blob are not yet deleted; (c) the post-delivery state is
exactly the one produced by the `res.on('finish')` handler
(`removeAndUnlink` of the captured filepath), i.e. deletion is finalized
only after the stream has been fully and successfully delivered. -/
theorem fetch_single_use (st : ServerState) (now : Nat) (id : String)
    (bs : Bytes) (nm mt : String) (st2 : ServerState)
    (h : fetchFull st now id = (.content bs nm mt, st2)) :
    (∀ now2, (fetchFull st2 now2 id).1 = FetchResult.notFound) ∧
    fetchOpen st now id = (.content bs nm mt, st) ∧
    ∃ e, lookupK id st.files = some e ∧ st2 = removeAndUnlink st id e.filepath := by
  unfold fetchFull at h
  split at h
  next hm => simp at h
  next e hm =>
    split at h
    next hexp => simp at h
    next hexp =>
      split at h
      next hd => simp at h
      next bs' hd =>
        injection h with h1 h2
        injection h1 with hb hn hmt
        refine ⟨?_, ?_, e, hm, h2.symm⟩
        · intro now2
          have hfiles : lookupK id st2.files = none := by
            rw [← h2]
            simp [removeAndUnlink, lookupK_eraseK_self]
          simp [fetchFull, hfiles]
        · simp [fetchOpen, hm, hexp, hd, hb, hn, hmt]

/-- C1 witness: the theorem applied to the single-object state `wState` at
time 50; the second fetch at time 70 answers `notFound` and the open-time
state is unchanged. -/
theorem fetch_single_use_witness :
    (fetchFull (removeAndUnlink wState "id1" "p1") 70 "id1").1
        = FetchResult.notFound ∧
    fetchOpen wState 50 "id1"
      = (FetchResult.content [1, 2, 3] "doc.pdf" "application/pdf", wState) :=
  ⟨(fetch_single_use wState 50 "id1" [1, 2, 3] "doc.pdf" "application/pdf"
      (removeAndUnlink wState "id1" "p1") (by decide)).1 70,
   (fetch_single_use wState 50 "id1" [1, 2, 3] "doc.pdf" "application/pdf"
      (removeAndUnlink wState "id1" "p1") (by decide)).2.1⟩

/-- C2: a fetch of a record whose `expiresAt` has passed answers `expired`
(so neither the content nor `notFound`), and as a side effect the record is
removed from the registry and the blob path is unlinked, so afterwards
neither the registry entry nor the file exists (lines 421-426). -/
theorem fetch_expired_deletes (st : ServerState) (now : Nat) (id : String)
    (e : Meta) (hget : lookupK id st.files = some e)
    (hexp : e.expiresAt < now) :
    fetchFull st now id = (.expired, removeAndUnlink st id e.filepath) ∧
    lookupK id (fetchFull st now id).2.files = none ∧
    lookupK e.filepath (fetchFull st now id).2.disk = none := by
  have h1 : fetchFull st now id = (.expired, removeAndUnlink st id e.filepath) := by
    simp [fetchFull, hget, hexp]
  refine ⟨h1, ?_, ?_⟩ <;> rw [h1] <;>
    simp [removeAndUnlink, lookupK_eraseK_self]

/-- C2 witness: the theorem applied to `wState` at time 200, past the
recorded deadline 100. -/
theorem fetch_expired_deletes_witness :
    fetchFull wState 200 "id1" = (.expired, removeAndUnlink wState "id1" "p1") ∧
    lookupK "id1" (fetchFull wState 200 "id1").2.files = none ∧
    lookupK "p1" (fetchFull wState 200 "id1").2.disk = none :=
  fetch_expired_deletes wState 200 "id1" wMeta (by decide) (by decide)

/-- C3: after a successful upload (blob within the size limit, no write
failure), a fetch issued before `expiresAt` and before any consumption
returns exactly the uploaded bytes together with the original
`originalname` and `mimetype` recorded at creation (upload lines 378-408,
download lines 428-439). -/
theorem create_fetch_roundtrip (maxFileSize expirationMs : Nat)
    (st : ServerState) (f : UploadFile) (id fp : String) (now now2 : Nat)
    (hsize : f.bytes.length ≤ maxFileSize)
    (hfresh : now2 < now + expirationMs) :
    (handleUpload maxFileSize expirationMs st f id fp now false).1
        = UploadResult.ok id (now + expirationMs) ∧
    (fetchFull (handleUpload maxFileSize expirationMs st f id fp now false).2
        now2 id).1
      = FetchResult.content f.bytes f.originalname f.mimetype := by
  have hnot : ¬ (now + expirationMs < now2) := fun hc => Nat.lt_asymm hc hfresh
  constructor
  · simp [handleUpload, multerWrite, hsize]
  · simp [handleUpload, multerWrite, hsize, fetchFull, lookupK_insertK_self,
      hnot]

/-- C3 witness: upload two bytes under limit 5 at time 0, fetch at time 3
(before the deadline 10): the original bytes, name and MIME type come
back. -/
theorem create_fetch_roundtrip_witness :
    (handleUpload 5 10 ⟨[], []⟩ ⟨[9, 9], "n.txt", "text/plain"⟩
        "idA" "pA" 0 false).1 = UploadResult.ok "idA" 10 ∧
    (fetchFull (handleUpload 5 10 ⟨[], []⟩ ⟨[9, 9], "n.txt", "text/plain"⟩
        "idA" "pA" 0 false).2 3 "idA").1
      = FetchResult.content [9, 9] "n.txt" "text/plain" :=
  create_fetch_roundtrip 5 10 ⟨[], []⟩ ⟨[9, 9], "n.txt", "text/plain"⟩
    "idA" "pA" 0 3 (by decide) (by decide)

/-- C4: startup deletes every orphan before the server accepts uploads.
The cleanup (lines 324-335) unlinks every file listed in the storage root,
and the registry starts empty, so in the state in which `app.listen` is
reached no pre-existing path is still on disk — in particular for any of
the N pre-existing files, none remains. -/
theorem startup_orphan_cleanup (d : Disk) (p : String) :
    lookupK p (startServer d).disk = none ∧ (startServer d).files = [] :=
  ⟨lookupK_startupCleanup d p, rfl⟩

/-- C5: an upload of exactly `maxFileSize` bytes succeeds, while an upload
of `maxFileSize + 1` bytes is rejected by the multer size limit (lines
355-358), surfaces as HTTP 413 through the error middleware (lines
452-457), and leaves the state — registry and storage directory — exactly
as before, so no partial file remains. -/
theorem upload_size_boundary (maxFileSize expirationMs : Nat)
    (st : ServerState) (f g : UploadFile) (id fp : String) (now : Nat) :
    (f.bytes.length = maxFileSize →
      (handleUpload maxFileSize expirationMs st f id fp now false).1
        = UploadResult.ok id (now + expirationMs)) ∧
    (g.bytes.length = maxFileSize + 1 →
      handleUpload maxFileSize expirationMs st g id fp now false
        = (.err 413, st)) := by
  constructor
  · intro h
    simp [handleUpload, multerWrite, h]
  · intro h
    simp [handleUpload, multerWrite, h, errorStatus]

/-- C5 witness: with limit 2, the two-byte upload succeeds and the
three-byte upload gets 413 with untouched state. -/
theorem upload_size_boundary_witness :
    (handleUpload 2 10 ⟨[], []⟩ ⟨[7, 7], "a.png", "image/png"⟩
        "i" "p" 1 false).1 = UploadResult.ok "i" 11 ∧
    handleUpload 2 10 ⟨[], []⟩ ⟨[7, 7, 7], "a.png", "image/png"⟩
        "i" "p" 1 false = (.err 413, ⟨[], []⟩) :=
  ⟨(upload_size_boundary 2 10 ⟨[], []⟩ ⟨[7, 7], "a.png", "image/png"⟩
      ⟨[7, 7, 7], "a.png", "image/png"⟩ "i" "p" 1).1 (by decide),
   (upload_size_boundary 2 10 ⟨[], []⟩ ⟨[7, 7], "a.png", "image/png"⟩
      ⟨[7, 7, 7], "a.png", "image/png"⟩ "i" "p" 1).2 (by decide)⟩

/-- C6: create is atomic with respect to blob-store failure.  Whenever the
multer write fails — size rejection or injected disk I/O failure — the
route handler that performs `files.set` never runs (multer middleware runs
first, lines 378, 452-462), so the response is the mapped error status and
the state, registry included, is exactly the state before the call. -/
theorem upload_atomic_on_failure (maxFileSize expirationMs : Nat)
    (st : ServerState) (f : UploadFile) (id fp : String) (now : Nat)
    (ioFail : Bool) (e : UploadError)
    (h : multerWrite st.disk fp f maxFileSize ioFail = .error e) :
    handleUpload maxFileSize expirationMs st f id fp now ioFail
      = (.err (errorStatus e), st) := by
  simp [handleUpload, h]

/-- C6 witness: an injected write failure on a non-empty state returns 500
and leaves the state untouched. -/
theorem upload_atomic_on_failure_witness :
    handleUpload 2 10 ⟨[], [("q", [5])]⟩ ⟨[4], "a.txt", "text/plain"⟩
        "i" "p" 1 true
      = (.err 500, ⟨[], [("q", [5])]⟩) :=
  upload_atomic_on_failure 2 10 ⟨[], [("q", [5])]⟩ ⟨[4], "a.txt", "text/plain"⟩
    "i" "p" 1 true UploadError.ioFailure rfl

/-- C7: once an id has no record in the registry, no public operation can
read the blob's content, even while the file still exists physically on
disk.  The main server's fetch answers `notFound` without touching the
disk (lines 416-419), status answers `notFound` (lines 465-467), and the
second variant's `GET /download/:id` answers one of its 404 messages on a
`fileStore` miss whether or not the file is on disk (lines 240-247), never
the content. -/
theorem removed_id_unreadable (st : ServerState) (st2 : V2State)
    (id : String) (now : Nat)
    (h : lookupK id st.files = none)
    (h2 : lookupK id st2.fileStore = none) :
    fetchFull st now id = (.notFound, st) ∧
    handleStatus st id = (.notFound, st) ∧
    ∀ bs nm, (handleDownloadV2 st2 id).1 ≠ V2Result.download bs nm := by
  refine ⟨by simp [fetchFull, h], by simp [handleStatus, h], ?_⟩
  intro bs nm
  simp only [handleDownloadV2, h2]
  split <;> simp

/-- C7 witness: a dangling id against states whose disks still physically
hold files (the second variant's disk even holds a file named after the
very id) is answered without content by fetch, status and the second
variant's download route. -/
theorem removed_id_unreadable_witness :
    fetchFull ⟨[], [("p1", [1])]⟩ 5 "ghost" = (.notFound, ⟨[], [("p1", [1])]⟩) ∧
    handleStatus ⟨[], [("p1", [1])]⟩ "ghost" = (.notFound, ⟨[], [("p1", [1])]⟩) ∧
    (handleDownloadV2 ⟨[], [("ghost", [1])]⟩ "ghost").1
      ≠ V2Result.download [1] "n" :=
  have H := removed_id_unreadable ⟨[], [("p1", [1])]⟩ ⟨[], [("ghost", [1])]⟩
    "ghost" 5 rfl rfl
  ⟨H.1, H.2.1, H.2.2 [1] "n"⟩

/-- C8: the internal remove-and-unlink step — the body of both the
deletion-timer callback (lines 368-374) and the download `finish` handler
(lines 443-447) — is idempotent and framed.  It is a total function
(`fs.unlink` errors are swallowed, `Map.delete` of an absent key is a
no-op), so a second run never throws; running it again changes nothing;
and it only ever touches the given id and the captured filepath, so a path
belonging to a different (reused) object is never deleted. -/
theorem removeAndUnlink_idempotent (st : ServerState) (id p : String) :
    removeAndUnlink (removeAndUnlink st id p) id p = removeAndUnlink st id p ∧
    (∀ q, q ≠ p →
      lookupK q (removeAndUnlink st id p).disk = lookupK q st.disk) ∧
    (∀ j, j ≠ id →
      lookupK j (removeAndUnlink st id p).files = lookupK j st.files) := by
  refine ⟨?_, ?_, ?_⟩
  · simp [removeAndUnlink, eraseK_eraseK]
  · intro q hq
    simpa [removeAndUnlink] using lookupK_eraseK_ne p q st.disk hq
  · intro j hj
    simpa [removeAndUnlink] using lookupK_eraseK_ne id j st.files hj

/-- C8 witness: on a state holding a second object, running the step twice
equals running it once, and the other object's path and id are
untouched. -/
theorem removeAndUnlink_idempotent_witness :
    removeAndUnlink (removeAndUnlink wState "id1" "p1") "id1" "p1"
      = removeAndUnlink wState "id1" "p1" ∧
    lookupK "p2" (removeAndUnlink wState "id1" "p1").disk
      = lookupK "p2" wState.disk ∧
    lookupK "id2" (removeAndUnlink wState "id1" "p1").files
      = lookupK "id2" wState.files :=
  ⟨(removeAndUnlink_idempotent wState "id1" "p1").1,
   (removeAndUnlink_idempotent wState "id1" "p1").2.1 "p2" (by decide),
   (removeAndUnlink_idempotent wState "id1" "p1").2.2 "id2" (by decide)⟩

/-- C9 counterexample: the stored filename is not independent of the
user-supplied original name.  With the random component and the timestamp
held fixed, two uploads differing only in their user-supplied names are
stored under different names — the multer `filename` callback (lines
348-353) appends the sanitized original name to the random prefix. -/
theorem storageFilename_uses_user_name :
    storageFilename "4f2a" 7 "a.png" ≠ storageFilename "4f2a" 7 "b.png" := by
  decide

/-- C9 amended: the stored filename is the concatenation of a prefix built
only from the random component and the timestamp — hence independent of
the user-supplied name — and of the sanitized original name, every
character of which lies in the class `[a-zA-Z0-9._-]`, so no path
separator or traversal sequence from the user-supplied name reaches the
stored path. -/
theorem storageFilename_sanitized (rand : String) (ts : Nat) (name : String) :
    storageFilename rand ts name
      = rand ++ "-" ++ toString ts ++ "-" ++ sanitizeName name ∧
    ∀ c ∈ (sanitizeName name).data, safeChar c = true := by
  refine ⟨rfl, ?_⟩
  intro c hc
  have hdata : (sanitizeName name).data
      = name.data.map (fun c => if safeChar c then c else '_') := rfl
  rw [hdata] at hc
  rcases List.mem_map.mp hc with ⟨c0, _, hc0⟩
  by_cases h : safeChar c0
  · rw [← hc0, if_pos h]
    exact h
  · rw [← hc0, if_neg h]
    decide

/-- C9 amended witness: for a hostile original name the decomposition
holds, and the underscore produced for its slash is in the safe class. -/
theorem storageFilename_sanitized_witness :
    storageFilename "4f2a" 7 "e vil/../x.png"
      = "4f2a" ++ "-" ++ toString 7 ++ "-" ++ sanitizeName "e vil/../x.png" ∧
    safeChar '_' = true :=
  ⟨(storageFilename_sanitized "4f2a" 7 "e vil/../x.png").1,
   (storageFilename_sanitized "4f2a" 7 "e vil/../x.png").2 '_' (by decide)⟩

/-- C10: `GET /api/status/:id` never consults `expiresAt`.  For a record
still in the registry whose deadline has passed, status answers
`exists: true` with the stale `expiresAt` — not `notFound` — and leaves
the state untouched (no deletion of the record or the file), whereas a
fetch of the same id at the same time answers `expired` (status lines
465-474 against fetch lines 421-426). -/
theorem status_ignores_expiry (st : ServerState) (now : Nat) (id : String)
    (e : Meta) (hget : lookupK id st.files = some e)
    (hexp : e.expiresAt < now) :
    handleStatus st id = (.info e.expiresAt e.size e.originalName, st) ∧
    (fetchFull st now id).1 = FetchResult.expired := by
  constructor
  · simp [handleStatus, hget]
  · simp [fetchFull, hget, hexp]

/-- C10 witness: at time 500, well past the deadline 100, status on
`wState` still reports the object with the stale deadline and unchanged
state, while fetch reports `expired`. -/
theorem status_ignores_expiry_witness :
    handleStatus wState "id1" = (.info 100 3 "doc.pdf", wState) ∧
    (fetchFull wState 500 "id1").1 = FetchResult.expired :=
  status_ignores_expiry wState 500 "id1" wMeta (by decide) (by decide)
